import Mathlib

/-!
Verification of the MySQL → Hive/Parquet DDL converter
(src/mysql/mysql_2_parquet_hive_ddl_converter.py).

The Python source is shallowly embedded below. Strings are modelled as
`List Char` (Lean 4.14's `String` is a wrapper around `List Char`), the
ordered type-mapping dictionary as an ordered list of entries, printed
diagnostics as explicit `Diag` values, and process-terminating behaviour
(`sys.exit(1)`, uncaught `IndexError`) as an `Except PyErr` result.
-/

/-- The backtick character, used by MySQL to quote identifiers. -/
def btick : Char := Char.ofNat 96

/-- ASCII whitespace as recognised by Python's `str.strip()` / `str.split()`
(space, tab, carriage return, newline, vertical tab, form feed). -/
def pyIsSpace (c : Char) : Bool :=
  c.isWhitespace || c = Char.ofNat 11 || c = Char.ofNat 12

/-- Drop the longest suffix whose characters all satisfy `p`. -/
def pyDropRightWhile (p : Char → Bool) (l : List Char) : List Char :=
  (l.reverse.dropWhile p).reverse

/-- Python `str.strip()`: remove leading and trailing whitespace. -/
def pyStrip (l : List Char) : List Char :=
  pyDropRightWhile pyIsSpace (l.dropWhile pyIsSpace)

/-- Python `str.rstrip(",")`: remove all trailing commas. -/
def pyRstripComma (l : List Char) : List Char :=
  pyDropRightWhile (fun c => c = ',') l

/-- The per-line cleanup done by `extract_columns`:
`line.strip().rstrip(",")`. -/
def cleanLine (l : List Char) : List Char := pyRstripComma (pyStrip l)

/-- Python `str.strip("\x60")` as applied to `parts[0]`: remove leading and
trailing backticks. -/
def stripBt (l : List Char) : List Char :=
  pyDropRightWhile (fun c => c = btick) (l.dropWhile (fun c => c = btick))

/-- Worker for `pySplitWs`, accumulating the current token reversed. -/
def pySplitWsGo : List Char → List Char → List (List Char)
  | [], acc => if acc.isEmpty then [] else [acc.reverse]
  | c :: r, acc =>
    if pyIsSpace c then
      if acc.isEmpty then pySplitWsGo r [] else acc.reverse :: pySplitWsGo r []
    else pySplitWsGo r (c :: acc)

/-- Python `str.split()` with no argument: split on runs of whitespace,
discarding empty tokens. -/
def pySplitWs (l : List Char) : List (List Char) := pySplitWsGo l []

/-- Python `str.split("\n")`: split on every newline, keeping empty pieces. -/
def splitLinesL : List Char → List (List Char)
  | [] => [[]]
  | c :: r =>
    if c = '\n' then [] :: splitLinesL r
    else match splitLinesL r with
      | [] => [[c]]
      | l :: ls => (c :: l) :: ls

/-- Worker for `findallQuotedL`: a left-to-right scan equivalent to
`re.findall` of a backtick-quoted-identifier pattern (a backtick, one or
more non-backtick characters, a backtick); the accumulator holds the
characters read so far of a candidate match, reversed. -/
def findallQuotedGo : List Char → Option (List Char) → List String
  | [], _ => []
  | c :: r, none =>
    if c = btick then findallQuotedGo r (some []) else findallQuotedGo r none
  | c :: r, some acc =>
    if c = btick then
      if acc.isEmpty then findallQuotedGo r (some [])
      else String.mk acc.reverse :: findallQuotedGo r none
    else findallQuotedGo r (some (c :: acc))

/-- All backtick-quoted identifiers of a line, in order of appearance,
as found by `re.findall` in `extract_columns`. -/
def findallQuotedL (l : List Char) : List String := findallQuotedGo l none

/-- Python `sep.join(parts)`. -/
def pyJoin (sep : String) : List String → String
  | [] => ""
  | [x] => x
  | x :: xs => x ++ sep ++ pyJoin sep xs

/-- Python `int()` applied to a captured string of decimal digits. -/
def pyInt (s : String) : Nat :=
  s.data.foldl (fun a c => 10 * a + (c.toNat - 48)) 0

/-- The PyArrow data types used as values of the mapping dictionary. -/
inductive PType where
  | bool_
  | int8
  | int16
  | int32
  | int64
  | float32
  | float64
  | decimal128 (p s : Nat)
  | string
  | binary
  | date32
  | timestamp (unit : String)
deriving DecidableEq

/-- Rendering of a PyArrow type by `str()`, as interpolated into the
schema text by `generate_parquet_schema`. -/
def pyArrowStr : PType → String
  | .bool_ => "bool"
  | .int8 => "int8"
  | .int16 => "int16"
  | .int32 => "int32"
  | .int64 => "int64"
  | .float32 => "float"
  | .float64 => "double"
  | .decimal128 p s => "decimal128(" ++ toString p ++ ", " ++ toString s ++ ")"
  | .string => "string"
  | .binary => "binary"
  | .date32 => "date32[day]"
  | .timestamp u => "timestamp[" ++ u ++ "]"

/-- A console diagnostic, as printed by the helpers `info`, `warn` and
`error` of the source. -/
inductive Diag where
  | info (msg : String)
  | warn (msg : String)
  | error (msg : String)
deriving DecidableEq

/-- A process-terminating event: `sys.exit(1)` (after printing the given
error message), an uncaught `IndexError`, or an uncaught `ValueError`. -/
inductive PyErr where
  | systemExit (msg : String)
  | indexError
  | valueError
deriving DecidableEq

/-- Result of one successful `convert_mysql_type` call: the Hive type
text, the PyArrow type, and the diagnostics printed along the way. -/
structure ConvRes where
  hive : String
  pq : PType
  diags : List Diag
deriving DecidableEq

/-- The shapes of regular expressions appearing as keys of
`MYSQL_TYPE_MAP`, all matched with `re.match` (anchored at the start,
not at the end). `lit s` is a plain literal; `litNum s` is the literal
`s` (ending in an opening parenthesis) followed by one or more digits
and a closing parenthesis; `decimalPat s` is the literal `s` followed by
two parenthesised digit groups separated by a comma, both captured. -/
inductive Pat where
  | lit (s : String)
  | litNum (s : String)
  | decimalPat (s : String)

/-- A value of the mapping dictionary: either two plain target types, or
(for the decimal rule) two callables applied to the captured groups. The
parquet callable can raise (pyarrow constructors validate their
arguments), so it returns an `Except`. -/
inductive TargetV where
  | plain (hive : String) (pq : PType)
  | callable (hiveF : String → String → String) (pqF : String → String → Except PyErr PType)

/-- One entry of `MYSQL_TYPE_MAP`: key pattern, value, and note. -/
structure MapEntry where
  pat : Pat
  target : TargetV
  note : String

/-- Semantics of the `pa.decimal128(precision, scale)` constructor: it
raises `ValueError` unless the precision lies in [1, 38]; the exception
is not caught anywhere in the source. -/
def pa_decimal128 (p s : Nat) : Except PyErr PType :=
  if 1 ≤ p ∧ p ≤ 38 then .ok (.decimal128 p s) else .error .valueError

/-- The `decimal\((\d+),(\d+)\)` entry of `MYSQL_TYPE_MAP`, whose values
are the two lambdas of the source; the parquet lambda calls
`pa.decimal128(int(p), int(s))`, which enforces the precision bound. -/
def decimalRule : MapEntry :=
  ⟨.decimalPat "decimal(",
   .callable (fun p s => "DECIMAL(" ++ p ++ "," ++ s ++ ")")
             (fun p s => pa_decimal128 (pyInt p) (pyInt s)),
   ""⟩

/-- The global `MYSQL_TYPE_MAP` dictionary, in insertion order (Python
dictionaries preserve insertion order, and `convert_mysql_type` iterates
over it in that order). -/
def MYSQL_TYPE_MAP : List MapEntry :=
  [⟨.lit "tinyint(1)", .plain "BOOLEAN" .bool_, "Mapped MySQL tinyint(1) to BOOLEAN"⟩,
   ⟨.lit "tinyint", .plain "TINYINT" .int8, ""⟩,
   ⟨.lit "smallint", .plain "SMALLINT" .int16, ""⟩,
   ⟨.lit "mediumint", .plain "INT" .int32, "MySQL MEDIUMINT mapped to Hive INT"⟩,
   ⟨.lit "int", .plain "INT" .int32, ""⟩,
   ⟨.lit "bigint", .plain "BIGINT" .int64, ""⟩,
   ⟨.lit "float", .plain "FLOAT" .float32, ""⟩,
   ⟨.lit "double", .plain "DOUBLE" .float64, ""⟩,
   decimalRule,
   ⟨.litNum "varchar(", .plain "STRING" .string, ""⟩,
   ⟨.litNum "char(", .plain "STRING" .string, ""⟩,
   ⟨.lit "text", .plain "STRING" .string, ""⟩,
   ⟨.lit "blob", .plain "BINARY" .binary, ""⟩,
   ⟨.lit "date", .plain "DATE" .date32, ""⟩,
   ⟨.lit "datetime", .plain "TIMESTAMP" (.timestamp "s"), ""⟩,
   ⟨.lit "timestamp", .plain "TIMESTAMP" (.timestamp "s"), ""⟩,
   ⟨.lit "enum", .plain "STRING" .string, "ENUM is not supported in Hive; converted to STRING"⟩,
   ⟨.lit "set", .plain "STRING" .string, "SET is not supported in Hive; converted to STRING"⟩,
   ⟨.lit "json", .plain "STRING" .string, "JSON stored as STRING"⟩,
   ⟨.lit "time", .plain "STRING" .string, "TIME is unsupported; stored as STRING"⟩,
   ⟨.lit "year", .plain "INT" .int32, "YEAR mapped to INT"⟩,
   ⟨.lit "geometry", .plain "STRING" .string, "GEOMETRY mapped to STRING (WKT representation expected)"⟩]

/-- Consume a literal expected prefix, returning the remainder on success. -/
def dropPrefixQ : List Char → List Char → Option (List Char)
  | [], t => some t
  | _ :: _, [] => none
  | c :: p, d :: t => if c = d then dropPrefixQ p t else none

/-- Semantics of `re.match(pattern, t)` for the pattern shapes of the
dictionary keys: `none` is no match, `some gs` is a match whose captured
groups are `gs` (`m.groups()`). -/
def matchPat : Pat → List Char → Option (List String)
  | .lit s, t => if s.data.isPrefixOf t then some [] else none
  | .litNum s, t =>
    match dropPrefixQ s.data t with
    | none => none
    | some r =>
      let ds := r.takeWhile Char.isDigit
      let r2 := r.dropWhile Char.isDigit
      if ds.isEmpty then none
      else
        match r2 with
        | [] => none
        | c :: _ => if c = ')' then some [] else none
  | .decimalPat s, t =>
    match dropPrefixQ s.data t with
    | none => none
    | some r =>
      let d1 := r.takeWhile Char.isDigit
      let r1 := r.dropWhile Char.isDigit
      if d1.isEmpty then none
      else
        match r1 with
        | [] => none
        | c :: r1' =>
          if c = ',' then
            let d2 := r1'.takeWhile Char.isDigit
            let r2 := r1'.dropWhile Char.isDigit
            if d2.isEmpty then none
            else
              match r2 with
              | [] => none
              | c2 :: _ =>
                if c2 = ')' then some [String.mk d1, String.mk d2] else none
          else none

/-- The `for pattern, mapping in MYSQL_TYPE_MAP.items()` loop of
`convert_mysql_type`: first entry whose pattern matches wins. -/
def findMatch : List MapEntry → List Char → Option (MapEntry × List String)
  | [], _ => none
  | e :: rest, t =>
    match matchPat e.pat t with
    | some gs => some (e, gs)
    | none => findMatch rest t

/-- The normalisation `mysql_type.lower().strip()` at the top of
`convert_mysql_type`. -/
def normalizeType (s : String) : List Char :=
  pyStrip (s.data.map Char.toLower)

/-- Embedding of `convert_mysql_type(colname, mysql_type, strict, verbose)`.
Returns the `(hive_type, pq_type)` pair together with the diagnostics it
prints, or the process-terminating event it raises. -/
def convert_mysql_type (colname mysql_type : String) (strict verbose : Bool) :
    Except PyErr ConvRes :=
  let t := normalizeType mysql_type
  match findMatch MYSQL_TYPE_MAP t with
  | some (e, gs) =>
    let diags : List Diag :=
      if (e.note != "") && verbose then [.info (colname ++ ": " ++ e.note)] else []
    match e.target with
    | .plain h p => .ok ⟨h, p, diags⟩
    | .callable hf pf =>
      match gs with
      | [p, s] =>
        match pf p s with
        | .error e => .error e
        | .ok pq => .ok ⟨hf p s, pq, diags⟩
      | _ => .error .valueError
  | none =>
    let msg := "Unknown MySQL type '" ++ mysql_type ++ "' for column '" ++ colname ++ "'"
    if strict then .error (.systemExit (msg ++ " (strict mode enabled)"))
    else .ok ⟨"STRING", .string, [.warn (msg ++ ". Using STRING fallback.")]⟩

/-- Test applied by `extract_columns` to decide that a (cleaned) line is a
column declaration: it begins with a backtick. -/
def isColLineL (l : List Char) : Bool :=
  match cleanLine l with
  | [] => false
  | c :: _ => c = btick

/-- Test applied by `extract_columns` to decide that a (cleaned) line is a
primary-key declaration: its upper-cased form begins with "PRIMARY KEY". -/
def isPkLineL (l : List Char) : Bool :=
  "PRIMARY KEY".data.isPrefixOf ((cleanLine l).map Char.toUpper)

/-- The column name a column-declaration line yields:
`parts[0].strip` of backticks, where `parts = line.split()`. -/
def lineColName (l : List Char) : String :=
  match pySplitWs (cleanLine l) with
  | [] => ""
  | p0 :: _ => String.mk (stripBt p0)

/-- Processing of one line of the DDL inside the loop of
`extract_columns`: the optional resolved column, the primary-key names
contributed by the line, and the diagnostics printed. -/
def processLine (line : List Char) (strict verbose : Bool) :
    Except PyErr (Option (String × String × PType) × List String × List Diag) :=
  let l := cleanLine line
  let colPart : Except PyErr (Option (String × String × PType) × List Diag) :=
    if isColLineL line then
      match pySplitWs l with
      | [] => .error .indexError
      | p0 :: rest =>
        match rest with
        | [] => .error .indexError
        | p1 :: _ =>
          let colname := String.mk (stripBt p0)
          match convert_mysql_type colname (String.mk p1) strict verbose with
          | .error e => .error e
          | .ok r => .ok (some (colname, r.hive, r.pq), r.diags)
    else .ok (none, [])
  match colPart with
  | .error e => .error e
  | .ok (copt, ds) =>
    let pks := if isPkLineL line then findallQuotedL l else []
    .ok (copt, pks, ds)

/-- The line loop of `extract_columns`, over an explicit list of lines.
An uncaught exception on any line aborts the whole call, so later lines
are never reached. -/
def extractLines (lines : List (List Char)) (strict verbose : Bool) :
    Except PyErr (List (String × String × PType) × List String × List Diag) :=
  match lines with
  | [] => .ok ([], [], [])
  | l :: rest =>
    match processLine l strict verbose with
    | .error e => .error e
    | .ok (copt, pks1, ds1) =>
      match extractLines rest strict verbose with
      | .error e => .error e
      | .ok (cols, pks2, ds2) => .ok (copt.toList ++ cols, pks1 ++ pks2, ds1 ++ ds2)

/-- Embedding of `extract_columns(mysql_ddl, strict, verbose)`: returns
the ordered resolved columns, the primary-key names, and all printed
diagnostics, or the process-terminating event raised. -/
def extract_columns (mysql_ddl : String) (strict verbose : Bool) :
    Except PyErr (List (String × String × PType) × List String × List Diag) :=
  extractLines (splitLinesL mysql_ddl.data) strict verbose

/-- The Hive DDL line rendered for one column by `generate_hive_ddl`. -/
def hiveColLine (pks : List String) (c : String × String × PType) : String :=
  if pks.contains c.1 then "  `" ++ c.1 ++ "` " ++ c.2.1 ++ " -- PRIMARY KEY"
  else "  `" ++ c.1 ++ "` " ++ c.2.1

/-- Embedding of `generate_hive_ddl(tbl, columns, pks)`. -/
def generate_hive_ddl (tbl : String) (columns : List (String × String × PType))
    (pks : List String) : String :=
  "CREATE TABLE " ++ tbl ++ " (\n"
    ++ pyJoin ",\n" (columns.map (hiveColLine pks))
    ++ "\n)\nSTORED AS PARQUET;\n"

/-- Embedding of `generate_parquet_schema(tbl, columns)`. -/
def generate_parquet_schema (tbl : String) (columns : List (String × String × PType)) : String :=
  pyJoin "\n"
    ((tbl ++ "_schema = pa.schema([")
      :: columns.map (fun c => "    (\"" ++ c.1 ++ "\", pa." ++ pyArrowStr c.2.2 ++ "),")
      ++ ["])\n"])

/-- The per-table body of `main` after the DDL text has been fetched:
extract the columns, then render both outputs. An exception during
extraction means no output text is produced for the table. -/
def process_table (tbl : String) (ddl : String) (strict verbose : Bool) :
    Except PyErr (String × String) :=
  match extract_columns ddl strict verbose with
  | .error e => .error e
  | .ok (cols, pks, _) => .ok (generate_hive_ddl tbl cols pks, generate_parquet_schema tbl cols)

/-- The character of a single decimal digit. -/
def digChar (d : Nat) : Char := Char.ofNat (48 + d)

/-- Canonical decimal numeral of a natural number (most significant digit
first), used to state properties quantified over numeric parameters. -/
def natStr (n : Nat) : String :=
  if n = 0 then "0" else String.mk (((Nat.digits 10 n).reverse).map digChar)

/-- A `decimal(p,s)` declaration with the given precision and scale. -/
def mkDecl (p s : Nat) : String :=
  "decimal(" ++ natStr p ++ "," ++ natStr s ++ ")"

/-- Claim C1: on the DDL with column lines for id (int), name
(varchar(255)) and amount (decimal(10,2)) plus a PRIMARY KEY (id) line,
the parser and both generators produce the Hive DDL listing id as INT
marked PRIMARY KEY, name as STRING and amount as DECIMAL(10,2), in that
order, and the Parquet schema block listing the same three columns with
their PyArrow types in the same order. -/
theorem claim_C1_end_to_end :
    process_table "t"
      "`id` int,\n`name` varchar(255),\n`amount` decimal(10,2),\nPRIMARY KEY (`id`)"
      false false =
    .ok ("CREATE TABLE t (\n  `id` INT -- PRIMARY KEY,\n  `name` STRING,\n  `amount` DECIMAL(10,2)\n)\nSTORED AS PARQUET;\n",
         "t_schema = pa.schema([\n    (\"id\", pa.int32),\n    (\"name\", pa.string),\n    (\"amount\", pa.decimal128(10, 2)),\n])\n") := by
  rfl

/-- Claim C2 (refuted by the code): a column of declared type "datetime"
does not resolve to the TIMESTAMP pair; because the "date" key precedes
the "datetime" key in `MYSQL_TYPE_MAP` and `re.match` matches prefixes,
it resolves to the DATE / date32 pair instead, while "timestamp" does
resolve to TIMESTAMP. The map's own datetime entry is unreachable. -/
theorem claim_C2_datetime_resolves_to_date :
    convert_mysql_type "c" "datetime" false false = .ok ⟨"DATE", .date32, []⟩ ∧
    convert_mysql_type "c" "timestamp" false false = .ok ⟨"TIMESTAMP", .timestamp "s", []⟩ := by
  exact ⟨rfl, rfl⟩

/-- Claim C10: a line that (after cleanup) begins with a backtick but has
no second whitespace-separated token makes the parser fail with an
index-out-of-range error; the whole call returns no result, rather than
skipping the line or yielding a partial column list. -/
theorem claim_C10_short_column_line_index_error :
    ∀ strict verbose : Bool,
      extract_columns "`a` int\n`id`" strict verbose = .error .indexError := by
  intro strict verbose
  rfl

/-- Claim C3: any column whose declared type normalises to "tinyint(1)"
resolves, for every strictness and verbosity setting, to the BOOLEAN /
bool pair of the first map entry, never to the TINYINT / int8 pair of
the more general tinyint rule that would also match the prefix. -/
theorem claim_C3_tinyint1_boolean :
    ∀ (colname mysql_type : String) (strict verbose : Bool),
      normalizeType mysql_type = "tinyint(1)".data →
      convert_mysql_type colname mysql_type strict verbose =
        .ok ⟨"BOOLEAN", .bool_,
             if verbose then [.info (colname ++ ": " ++ "Mapped MySQL tinyint(1) to BOOLEAN")]
             else []⟩ := by
  intro colname mysql_type strict verbose h
  simp only [convert_mysql_type, h]
  rfl

/-- Witness for claim C3, at the declared type " TINYINT(1) ". -/
theorem claim_C3_tinyint1_boolean_witness :
    convert_mysql_type "flag" " TINYINT(1) " true true =
      .ok ⟨"BOOLEAN", .bool_, [.info "flag: Mapped MySQL tinyint(1) to BOOLEAN"]⟩ := by
  have h := claim_C3_tinyint1_boolean "flag" " TINYINT(1) " true true rfl
  exact h

/-- Claim C5: with strict mode on, an unmapped declared type makes
resolution fail fatally with the "unknown type" abort; at the table
level the run aborts at the offending column, independently of whatever
text follows it, and no output is generated for the table. -/
theorem claim_C5_strict_abort :
    (∀ (colname mysql_type : String) (verbose : Bool),
       findMatch MYSQL_TYPE_MAP (normalizeType mysql_type) = none →
       convert_mysql_type colname mysql_type true verbose =
         .error (.systemExit (("Unknown MySQL type '" ++ mysql_type ++ "' for column '"
            ++ colname ++ "'") ++ " (strict mode enabled)"))) ∧
    (∀ (rest : String) (verbose : Bool),
       process_table "t" ("`a` int\n`b` foo\n" ++ rest) true verbose =
         .error (.systemExit "Unknown MySQL type 'foo' for column 'b' (strict mode enabled)")) := by
  constructor
  · intro colname mysql_type verbose h
    simp only [convert_mysql_type, h]
    rfl
  · intro rest verbose
    rfl

/-- Witness for claim C5, at the declared type "foo" and a DDL whose
second column has that type. -/
theorem claim_C5_strict_abort_witness :
    convert_mysql_type "c" "foo" true false =
      .error (.systemExit (("Unknown MySQL type '" ++ "foo" ++ "' for column '"
        ++ "c" ++ "'") ++ " (strict mode enabled)")) ∧
    process_table "t" ("`a` int\n`b` foo\n" ++ "") true false =
      .error (.systemExit "Unknown MySQL type 'foo' for column 'b' (strict mode enabled)") :=
  ⟨claim_C5_strict_abort.1 "c" "foo" false rfl, claim_C5_strict_abort.2 "" false⟩

/-- Claim C6: with strict mode off, an unmapped declared type does not
fail: it returns the STRING / string fallback pair and prints exactly
one warning, whatever the verbosity setting, so the fallback is never
silent. -/
theorem claim_C6_fallback_warning :
    ∀ (colname mysql_type : String) (verbose : Bool),
      findMatch MYSQL_TYPE_MAP (normalizeType mysql_type) = none →
      convert_mysql_type colname mysql_type false verbose =
        .ok ⟨"STRING", .string,
             [.warn (("Unknown MySQL type '" ++ mysql_type ++ "' for column '"
               ++ colname ++ "'") ++ ". Using STRING fallback.")]⟩ := by
  intro colname mysql_type verbose h
  simp only [convert_mysql_type, h]
  rfl

/-- Witness for claim C6, at the declared type "foo" with verbosity off. -/
theorem claim_C6_fallback_warning_witness :
    convert_mysql_type "c" "foo" false false =
      .ok ⟨"STRING", .string,
           [.warn (("Unknown MySQL type '" ++ "foo" ++ "' for column '"
             ++ "c" ++ "'") ++ ". Using STRING fallback.")]⟩ :=
  claim_C6_fallback_warning "c" "foo" false rfl

theorem dropPrefixQ_self : ∀ (l r : List Char), dropPrefixQ l (l ++ r) = some r
  | [], _ => rfl
  | c :: p, r => by simp [dropPrefixQ, dropPrefixQ_self p r]

theorem isEmpty_false (l : List Char) (h : l ≠ []) : l.isEmpty = false := by
  cases l with
  | nil => exact absurd rfl h
  | cons a t => rfl

theorem takeWhile_all_append (p : Char → Bool) :
    ∀ (l : List Char) (c0 : Char) (r : List Char),
      (∀ c ∈ l, p c = true) → p c0 = false →
      (l ++ c0 :: r).takeWhile p = l ∧ (l ++ c0 :: r).dropWhile p = c0 :: r
  | [], c0, r, _, hc0 => by
    simp [List.takeWhile_cons, List.dropWhile_cons, hc0]
  | a :: l, c0, r, h, hc0 => by
    have ha := h a (by simp)
    have ih := takeWhile_all_append p l c0 r (fun c hc => h c (by simp [hc])) hc0
    simp [List.takeWhile_cons, List.dropWhile_cons, ha, ih.1, ih.2]

theorem dropWhile_all_false (p : Char → Bool) :
    ∀ l : List Char, (∀ c ∈ l, p c = false) → l.dropWhile p = l
  | [], _ => rfl
  | a :: l, h => by
    have ha := h a (by simp)
    simp [List.dropWhile_cons, ha]

theorem pyStrip_no_ws (l : List Char) (h : ∀ c ∈ l, pyIsSpace c = false) :
    pyStrip l = l := by
  unfold pyStrip pyDropRightWhile
  rw [dropWhile_all_false _ l h,
      dropWhile_all_false _ l.reverse (fun c hc => h c (List.mem_reverse.mp hc)),
      List.reverse_reverse]

theorem digChar_facts (d : Nat) (h : d < 10) :
    (digChar d).isDigit = true ∧ Char.toLower (digChar d) = digChar d ∧
      pyIsSpace (digChar d) = false ∧ (digChar d).toNat = 48 + d := by
  interval_cases d <;> exact ⟨rfl, rfl, rfl, rfl⟩

theorem natStr_data (n : Nat) :
    (natStr n).data = if n = 0 then ['0'] else ((Nat.digits 10 n).reverse).map digChar := by
  unfold natStr
  split <;> rfl

theorem natStr_ne_nil (n : Nat) : (natStr n).data ≠ [] := by
  rw [natStr_data]
  split
  · simp
  · simp only [ne_eq, List.map_eq_nil_iff, List.reverse_eq_nil_iff]
    exact Nat.digits_ne_nil_iff_ne_zero.mpr (by assumption)

theorem natStr_char_facts (n : Nat) :
    ∀ c ∈ (natStr n).data,
      c.isDigit = true ∧ Char.toLower c = c ∧ pyIsSpace c = false := by
  rw [natStr_data]
  split
  · intro c hc
    simp only [List.mem_singleton] at hc
    subst hc
    exact ⟨rfl, rfl, rfl⟩
  · intro c hc
    simp only [List.mem_map, List.mem_reverse] at hc
    obtain ⟨d, hd, rfl⟩ := hc
    have hlt : d < 10 := Nat.digits_lt_base (by norm_num) hd
    obtain ⟨h1, h2, h3, _⟩ := digChar_facts d hlt
    exact ⟨h1, h2, h3⟩

theorem map_toLower_natStr (n : Nat) :
    (natStr n).data.map Char.toLower = (natStr n).data := by
  have h := natStr_char_facts n
  calc (natStr n).data.map Char.toLower
      = (natStr n).data.map id := List.map_congr_left (fun c hc => (h c hc).2.1)
    _ = (natStr n).data := List.map_id _

theorem foldl_digits :
    ∀ (l : List Nat), (∀ d ∈ l, d < 10) → ∀ (a : Nat),
      List.foldl (fun a c => 10 * a + (c.toNat - 48)) a (l.map digChar) =
        List.foldl (fun a d => 10 * a + d) a l
  | [], _, a => rfl
  | d :: l, h, a => by
    have hd := h d (by simp)
    have ih := foldl_digits l (fun x hx => h x (by simp [hx]))
    simp only [List.map_cons, List.foldl_cons, (digChar_facts d hd).2.2.2]
    rw [ih]
    congr 1
    omega

theorem foldr_ofDigits :
    ∀ l : List Nat, l.foldr (fun d a => 10 * a + d) 0 = Nat.ofDigits 10 l
  | [] => rfl
  | d :: l => by
    simp only [List.foldr_cons, foldr_ofDigits l, Nat.ofDigits_cons]
    omega

theorem pyInt_natStr (n : Nat) : pyInt (natStr n) = n := by
  by_cases h0 : n = 0
  · subst h0
    rfl
  · unfold pyInt
    rw [natStr_data]
    simp only [h0, if_false]
    rw [foldl_digits ((Nat.digits 10 n).reverse)
          (fun d hd => Nat.digits_lt_base (by norm_num) (List.mem_reverse.mp hd)) 0,
        List.foldl_reverse, foldr_ofDigits, Nat.ofDigits_digits]

theorem mem_decimal_lit_not_space : ∀ c ∈ "decimal(".data, pyIsSpace c = false := by
  decide

theorem normalize_mkDecl (p s : Nat) :
    normalizeType (mkDecl p s) =
      "decimal(".data ++ ((natStr p).data ++ ',' :: ((natStr s).data ++ [')'])) := by
  unfold normalizeType mkDecl
  simp only [String.data_append, List.map_append]
  rw [(show ("decimal(".data.map Char.toLower) = "decimal(".data from rfl),
      (show (",".data.map Char.toLower) = [','] from rfl),
      (show (")".data.map Char.toLower) = [')'] from rfl),
      map_toLower_natStr, map_toLower_natStr]
  simp only [List.append_assoc, List.singleton_append]
  apply pyStrip_no_ws
  intro c hc
  rcases List.mem_append.mp hc with h | h
  · exact mem_decimal_lit_not_space c h
  · rcases List.mem_append.mp h with h2 | h2
    · exact (natStr_char_facts p c h2).2.2
    · rcases List.mem_cons.mp h2 with h3 | h3
      · subst h3
        rfl
      · rcases List.mem_append.mp h3 with h4 | h4
        · exact (natStr_char_facts s c h4).2.2
        · rcases List.mem_cons.mp h4 with h5 | h5
          · subst h5
            rfl
          · exact absurd h5 (List.not_mem_nil c)

theorem matchPat_decimal (dp ds : List Char) (hdp : dp ≠ []) (hds : ds ≠ [])
    (hd1 : ∀ c ∈ dp, c.isDigit = true) (hd2 : ∀ c ∈ ds, c.isDigit = true) :
    matchPat (.decimalPat "decimal(") ("decimal(".data ++ (dp ++ ',' :: (ds ++ [')']))) =
      some [String.mk dp, String.mk ds] := by
  obtain ⟨ht1, hw1⟩ := takeWhile_all_append Char.isDigit dp ',' (ds ++ [')']) hd1 (by decide)
  obtain ⟨ht2, hw2⟩ := takeWhile_all_append Char.isDigit ds ')' [] hd2 (by decide)
  simp only [matchPat, dropPrefixQ_self, ht1, hw1, ht2, hw2,
             isEmpty_false dp hdp, isEmpty_false ds hds,
             Bool.false_eq_true, if_false, if_true, eq_self_iff_true]

theorem findMatch_decimal_eq (r : List Char) :
    findMatch MYSQL_TYPE_MAP ("decimal(".data ++ r) =
      match matchPat (.decimalPat "decimal(") ("decimal(".data ++ r) with
      | some gs => some (decimalRule, gs)
      | none => findMatch (MYSQL_TYPE_MAP.drop 9) ("decimal(".data ++ r) := rfl

/-- Claim C4 fails as stated at precision 39: `decimal(39,2)` does not
resolve to a pair carrying 39 and 2 — `pa.decimal128(39, 2)` raises an
uncaught ValueError (precision must lie in [1, 38]), so the resolver
returns nothing and a table containing such a column renders no output. -/
theorem claim_C4_decimal_params_counterexample :
    convert_mysql_type "amount" "decimal(39,2)" false false = .error .valueError ∧
    ¬ (convert_mysql_type "amount" "decimal(39,2)" false false =
        .ok ⟨"DECIMAL(39,2)", .decimal128 39 2, []⟩) ∧
    process_table "t" "`a` decimal(39,2)" false false = .error .valueError := by
  exact ⟨rfl, fun h => Except.noConfusion h, rfl⟩

/-- Claim C4 (amended): for every precision `p` with `0 < p ≤ 38` — the
range accepted by the PyArrow decimal128 constructor — and scale
`s ≤ p`, resolving a `decimal(p,s)` declaration yields, for every
strictness and verbosity setting, a Hive type carrying exactly the
parsed `p` and `s` and the PyArrow decimal128 type parameterised by the
same `p` and `s`; for larger precisions the constructor raises instead. -/
theorem claim_C4_decimal_params :
    ∀ (p s : Nat) (colname : String) (strict verbose : Bool),
      0 < p → p ≤ 38 → s ≤ p →
      convert_mysql_type colname (mkDecl p s) strict verbose =
        .ok ⟨"DECIMAL(" ++ natStr p ++ "," ++ natStr s ++ ")", .decimal128 p s, []⟩ := by
  intro p s colname strict verbose hp hp38 hs
  have hm := matchPat_decimal (natStr p).data (natStr s).data (natStr_ne_nil p)
    (natStr_ne_nil s) (fun c hc => (natStr_char_facts p c hc).1)
    (fun c hc => (natStr_char_facts s c hc).1)
  have hfm : findMatch MYSQL_TYPE_MAP (normalizeType (mkDecl p s)) =
      some (decimalRule, [String.mk (natStr p).data, String.mk (natStr s).data]) := by
    rw [normalize_mkDecl, findMatch_decimal_eq, hm]
  have hbound : pa_decimal128 p s = .ok (.decimal128 p s) := by
    unfold pa_decimal128
    exact if_pos ⟨hp, hp38⟩
  simp only [convert_mysql_type, hfm, decimalRule]
  rw [(show String.mk (natStr p).data = natStr p from rfl),
      (show String.mk (natStr s).data = natStr s from rfl),
      pyInt_natStr, pyInt_natStr, hbound]
  simp

/-- Witness for claim C4, at precision 10 and scale 2. -/
theorem claim_C4_decimal_params_witness :
    0 < 10 ∧ 10 ≤ 38 ∧ 2 ≤ 10 ∧
    convert_mysql_type "amount" (mkDecl 10 2) true true =
      .ok ⟨"DECIMAL(" ++ natStr 10 ++ "," ++ natStr 2 ++ ")", .decimal128 10 2, []⟩ :=
  ⟨by decide, by decide, by decide,
   claim_C4_decimal_params 10 2 "amount" true true (by decide) (by decide) (by decide)⟩

theorem processLine_ok_inv (l : List Char) (s v : Bool)
    (copt : Option (String × String × PType)) (pks : List String) (ds : List Diag)
    (h : processLine l s v = .ok (copt, pks, ds)) :
    (copt.toList.map (fun c => c.1) = if isColLineL l then [lineColName l] else []) ∧
    pks = (if isPkLineL l then findallQuotedL (cleanLine l) else []) := by
  cases hcol : isColLineL l with
  | false =>
    simp only [processLine, hcol, if_false] at h
    obtain ⟨rfl, rfl, rfl⟩ : none = copt ∧ _ = pks ∧ [] = ds := by
      simpa using h
    simp [hcol]
  | true =>
    simp only [processLine, hcol, if_true] at h
    cases hsplit : pySplitWs (cleanLine l) with
    | nil =>
      rw [hsplit] at h
      simp at h
    | cons p0 rest =>
      rw [hsplit] at h
      cases rest with
      | nil =>
        simp at h
      | cons p1 rest2 =>
        dsimp only [] at h
        cases hconv : convert_mysql_type (String.mk (stripBt p0)) (String.mk p1) s v with
        | error e =>
          rw [hconv] at h
          simp at h
        | ok r =>
          rw [hconv] at h
          obtain ⟨rfl, rfl, rfl⟩ :
              some (String.mk (stripBt p0), r.hive, r.pq) = copt ∧ _ = pks ∧ r.diags = ds := by
            simpa using h
          constructor
          · simp [hcol, lineColName, hsplit]
          · rfl

theorem extractLines_inv :
    ∀ (lines : List (List Char)) (s v : Bool)
      (cols : List (String × String × PType)) (pks : List String) (ds : List Diag),
      extractLines lines s v = .ok (cols, pks, ds) →
      cols.map (fun c => c.1) = (lines.filter (fun l => isColLineL l)).map lineColName ∧
      pks = (lines.filter (fun l => isPkLineL l)).flatMap (fun l => findallQuotedL (cleanLine l))
  | [], s, v, cols, pks, ds, h => by
    obtain ⟨rfl, rfl, rfl⟩ : [] = cols ∧ [] = pks ∧ [] = ds := by
      simpa [extractLines] using h
    simp
  | l :: rest, s, v, cols, pks, ds, h => by
    rw [extractLines] at h
    cases hpl : processLine l s v with
    | error e =>
      rw [hpl] at h
      simp at h
    | ok t =>
      obtain ⟨copt, pks1, ds1⟩ := t
      rw [hpl] at h
      cases hrec : extractLines rest s v with
      | error e =>
        rw [hrec] at h
        simp at h
      | ok t2 =>
        obtain ⟨cols2, pks2, ds2⟩ := t2
        rw [hrec] at h
        obtain ⟨rfl, rfl, rfl⟩ :
            copt.toList ++ cols2 = cols ∧ pks1 ++ pks2 = pks ∧ ds1 ++ ds2 = ds := by
          simpa using h
        obtain ⟨hc1, hp1⟩ := processLine_ok_inv l s v copt pks1 ds1 hpl
        obtain ⟨hc2, hp2⟩ := extractLines_inv rest s v cols2 pks2 ds2 hrec
        constructor
        · rw [List.map_append, hc1, hc2, List.filter_cons]
          cases hcol : isColLineL l <;> simp [hcol]
        · rw [hp1, hp2, List.filter_cons]
          cases hpk : isPkLineL l <;> simp [hpk]

theorem extractLines_none :
    ∀ (lines : List (List Char)) (s v : Bool),
      (∀ l ∈ lines, isColLineL l = false ∧ isPkLineL l = false) →
      extractLines lines s v = .ok ([], [], [])
  | [], _, _, _ => rfl
  | l :: rest, s, v, h => by
    obtain ⟨hc, hp⟩ := h l (by simp)
    rw [extractLines]
    rw [(show processLine l s v = .ok (none, [], []) by simp [processLine, hc, hp])]
    rw [extractLines_none rest s v (fun x hx => h x (by simp [hx]))]
    rfl

/-- Claim C7: whenever parsing succeeds, the resolved columns are in
one-to-one, order-preserving correspondence with the column-declaration
lines (cleaned lines beginning with a backtick): the count matches, the
names follow input line order, and lines matching neither the column
pattern nor the primary-key pattern contribute nothing to the result. -/
theorem claim_C7_column_count_order :
    ∀ (ddl : String) (strict verbose : Bool)
      (cols : List (String × String × PType)) (pks : List String) (ds : List Diag),
      extract_columns ddl strict verbose = .ok (cols, pks, ds) →
      cols.length = ((splitLinesL ddl.data).filter (fun l => isColLineL l)).length ∧
      cols.map (fun c => c.1) =
        ((splitLinesL ddl.data).filter (fun l => isColLineL l)).map lineColName ∧
      pks = ((splitLinesL ddl.data).filter (fun l => isPkLineL l)).flatMap
        (fun l => findallQuotedL (cleanLine l)) := by
  intro ddl strict verbose cols pks ds h
  obtain ⟨h1, h2⟩ := extractLines_inv (splitLinesL ddl.data) strict verbose cols pks ds h
  refine ⟨?_, h1, h2⟩
  calc cols.length = (cols.map (fun c => c.1)).length := (List.length_map _ _).symm
    _ = (((splitLinesL ddl.data).filter (fun l => isColLineL l)).map lineColName).length := by
        rw [h1]
    _ = ((splitLinesL ddl.data).filter (fun l => isColLineL l)).length := List.length_map _ _

/-- Witness for claim C7, on a DDL with one column line, one primary-key
line and one line matching neither. -/
theorem claim_C7_column_count_order_witness :
    ([("a", "INT", PType.int32)] : List (String × String × PType)).length =
      ((splitLinesL (") ENGINE=x\n`a` int,\nPRIMARY KEY (`a`)" : String).data).filter
        (fun l => isColLineL l)).length ∧
    ([("a", "INT", PType.int32)] : List (String × String × PType)).map (fun c => c.1) =
      ((splitLinesL (") ENGINE=x\n`a` int,\nPRIMARY KEY (`a`)" : String).data).filter
        (fun l => isColLineL l)).map lineColName ∧
    (["a"] : List String) =
      ((splitLinesL (") ENGINE=x\n`a` int,\nPRIMARY KEY (`a`)" : String).data).filter
        (fun l => isPkLineL l)).flatMap (fun l => findallQuotedL (cleanLine l)) :=
  claim_C7_column_count_order ") ENGINE=x\n`a` int,\nPRIMARY KEY (`a`)" false false
    [("a", "INT", PType.int32)] ["a"] [] rfl

/-- Claim C8: whenever parsing succeeds, the primary-key list is exactly
the concatenation, over the primary-key lines in input order, of the
backtick-quoted identifiers found on each such line; column-declaration
lines contribute nothing to it, so a single primary-key line with N
quoted identifiers yields exactly those N entries. -/
theorem claim_C8_primary_key_extraction :
    ∀ (ddl : String) (strict verbose : Bool)
      (cols : List (String × String × PType)) (pks : List String) (ds : List Diag),
      extract_columns ddl strict verbose = .ok (cols, pks, ds) →
      pks = ((splitLinesL ddl.data).filter (fun l => isPkLineL l)).flatMap
        (fun l => findallQuotedL (cleanLine l)) ∧
      (∀ l0, (splitLinesL ddl.data).filter (fun l => isPkLineL l) = [l0] →
        pks = findallQuotedL (cleanLine l0)) := by
  intro ddl strict verbose cols pks ds h
  have h2 := (extractLines_inv (splitLinesL ddl.data) strict verbose cols pks ds h).2
  refine ⟨h2, ?_⟩
  intro l0 hl0
  rw [h2, hl0]
  simp

/-- Witness for claim C8, on a DDL whose composite primary-key line holds
two quoted identifiers, one shared with a column-declaration line. -/
theorem claim_C8_primary_key_extraction_witness :
    (["a", "b"] : List String) =
      ((splitLinesL ("`a` int\nPRIMARY KEY (`a`,`b`)" : String).data).filter
        (fun l => isPkLineL l)).flatMap (fun l => findallQuotedL (cleanLine l)) ∧
    (["a", "b"] : List String) =
      findallQuotedL (cleanLine ("PRIMARY KEY (`a`,`b`)" : String).data) :=
  have h := claim_C8_primary_key_extraction "`a` int\nPRIMARY KEY (`a`,`b`)" false false
    [("a", "INT", PType.int32)] ["a", "b"] [] rfl
  ⟨h.1, h.2 ("PRIMARY KEY (`a`,`b`)" : String).data rfl⟩

/-- Claim C9: a DDL none of whose lines is a column declaration or a
primary-key declaration parses, for every mode, to an empty column list
and an empty primary-key list with no diagnostics and no error, and both
generators applied to the empty column list still return their
(column-less) output text rather than failing. -/
theorem claim_C9_empty_table :
    ∀ (ddl tbl : String) (strict verbose : Bool),
      (∀ l ∈ splitLinesL ddl.data, isColLineL l = false ∧ isPkLineL l = false) →
      extract_columns ddl strict verbose = .ok ([], [], []) ∧
      generate_hive_ddl tbl [] [] =
        "CREATE TABLE " ++ tbl ++ " (\n\n)\nSTORED AS PARQUET;\n" ∧
      generate_parquet_schema tbl [] = tbl ++ "_schema = pa.schema([\n])\n" := by
  intro ddl tbl strict verbose h
  refine ⟨extractLines_none _ strict verbose h, ?_, ?_⟩
  · apply String.ext
    simp only [generate_hive_ddl, List.map_nil, pyJoin, String.data_append,
               List.append_assoc, (show ("" : String).data = ([] : List Char) from rfl),
               List.nil_append]
    congr 1
  · apply String.ext
    simp only [generate_parquet_schema, List.map_nil, List.nil_append, pyJoin,
               String.data_append, List.append_assoc]
    congr 1

/-- Witness for claim C9, on a two-line DDL with no column and no
primary-key line. -/
theorem claim_C9_empty_table_witness :
    extract_columns ") ENGINE=InnoDB\n-- comment" true false = .ok ([], [], []) ∧
    generate_hive_ddl "t" [] [] =
      "CREATE TABLE " ++ "t" ++ " (\n\n)\nSTORED AS PARQUET;\n" ∧
    generate_parquet_schema "t" [] = "t" ++ "_schema = pa.schema([\n])\n" :=
  claim_C9_empty_table ") ENGINE=InnoDB\n-- comment" "t" true false (by decide)
